import Mathlib

/-!
Verification of the propositional-logic expression engine in
`LogicalInference_TrafficRules_AnneMarie_(S10257168C).py`.

Python strings are modelled as `List Char`, Python dict models as
`String → Option PyObj` (values of arbitrary type, coerced via `bool()`),
and Python exceptions as `Except PyError`.
-/

/-- A Python value that may appear in a model; `bool()` coercion is `truthy`. -/
inductive PyObj where
  | pybool (b : Bool)
  | pyint (n : Int)
  | pystr (s : List Char)
  | pynone
deriving DecidableEq, Repr

/-- Python `bool(v)` truthiness for the modelled value kinds. -/
def truthy : PyObj → Bool
  | .pybool b => b
  | .pyint n => n != 0
  | .pystr s => !s.isEmpty
  | .pynone => false

/-- The exceptions the source raises: `Exception("variable ... not in model")`
(from `Symbol.evaluate`), `TypeError` (from `Sentence.validate` and from
`set.union()` with no arguments), and `Exception("nothing to evaluate")`
(from the base `Sentence.evaluate`). -/
inductive PyError where
  | unboundVariable (name : String)
  | typeError
  | nothingToEvaluate
deriving DecidableEq, Repr

/-- A model: a dict from variable name to an arbitrary Python value. -/
abbrev Model := String → Option PyObj

/-- The `Sentence` class hierarchy: the instantiable base class plus the
four subclasses `Symbol`, `Not`, `And`, `Implication`. -/
inductive Sentence where
  | base
  | symbol (name : String)
  | not (operand : Sentence)
  | and (conjuncts : List Sentence)
  | implication (antecedent consequent : Sentence)
deriving Repr

/-- The inner `balanced` scan of `Sentence.parenthesize`, carrying the
running open-paren count (Python `count`): on `)` with `count <= 0` it
returns `False`, otherwise decrements; at the end it requires `count == 0`. -/
def balancedFrom : Nat → List Char → Bool
  | count, [] => count == 0
  | count, c :: rest =>
    if c = '(' then balancedFrom (count + 1) rest
    else if c = ')' then
      match count with
      | 0 => false
      | k + 1 => balancedFrom k rest
    else balancedFrom count rest

/-- Inner helper `balanced(s)` from `Sentence.parenthesize`. -/
def balanced (s : List Char) : Bool := balancedFrom 0 s

/-- Python `s.isalpha()`: non-empty and every character alphabetic. -/
def pyIsAlpha (s : List Char) : Bool := !s.isEmpty && s.all Char.isAlpha

/-- The third disjunct of the `parenthesize` guard:
`s[0] == "(" and s[-1] == ")" and balanced(s[1:-1])`. -/
def wrapped : List Char → Bool
  | [] => false
  | c :: rest => c == '(' && rest.getLast? == some ')' && balanced rest.dropLast

/-- Source classmethod `Sentence.parenthesize`: return `s` unchanged when `s` is empty, all
alphabetic, or already wrapped with balanced inner parentheses; otherwise
wrap it as `f"({s})"`. -/
def parenthesize (s : List Char) : List Char :=
  if s.isEmpty || pyIsAlpha s || wrapped s then s else '(' :: (s ++ [')'])

mutual
/-- Source method `evaluate(self, model)`. The base class raises
`Exception("nothing to evaluate")`; `Symbol` looks its name up in the model
and coerces via `bool(...)`, raising on `KeyError`; `Not` negates; `And`
is Python `all(...)` over a generator (short-circuiting); `Implication`
is `(not antecedent.evaluate(model)) or consequent.evaluate(model)`
(short-circuiting `or`). -/
def evaluate : Sentence → Model → Except PyError Bool
  | .base, _ => .error .nothingToEvaluate
  | .symbol n, m =>
    match m n with
    | some v => .ok (truthy v)
    | none => .error (.unboundVariable n)
  | .not x, m => do
    let b ← evaluate x m
    .ok (!b)
  | .and cs, m => evalConjuncts cs m
  | .implication a b, m => do
    let x ← evaluate a m
    if x then evaluate b m else .ok true

/-- Python `all(conjunct.evaluate(model) for conjunct in self.conjuncts)`:
evaluates left to right, returns `False` at the first falsy conjunct
without touching the rest, propagates the first raised exception. -/
def evalConjuncts : List Sentence → Model → Except PyError Bool
  | [], _ => .ok true
  | c :: rest, m => do
    let b ← evaluate c m
    if b then evalConjuncts rest m else .ok false
end

mutual
/-- Source method `symbols(self)`. The base class returns `set()`; `Symbol` a singleton;
`Not` its operand's set; `And` computes every conjunct's set first and then
`set.union(*list)`, which raises `TypeError` when the list is empty;
`Implication` the union of both sides. -/
def symbols : Sentence → Except PyError (Finset String)
  | .base => .ok ∅
  | .symbol n => .ok {n}
  | .not x => symbols x
  | .and cs => do
    let sets ← symbolsList cs
    match sets with
    | [] => .error .typeError
    | s0 :: rest => .ok (rest.foldl (· ∪ ·) s0)
  | .implication a b => do
    let s1 ← symbols a
    let s2 ← symbols b
    .ok (s1 ∪ s2)

/-- The list comprehension `[conjunct.symbols() for conjunct in self.conjuncts]`,
propagating the first exception. -/
def symbolsList : List Sentence → Except PyError (List (Finset String))
  | [] => .ok []
  | c :: rest => do
    let s ← symbols c
    let ss ← symbolsList rest
    .ok (s :: ss)
end

/-- Python `sep.join(parts)`. -/
def pyJoin (sep : List Char) : List (List Char) → List Char
  | [] => []
  | [x] => x
  | x :: rest => x ++ sep ++ pyJoin sep rest

mutual
/-- Source method `formula(self)`. The base class returns `""`; `Symbol` its name;
`Not` is `"¬" + parenthesize(operand.formula())`; `And` returns the lone
conjunct's formula when there is exactly one, else joins the parenthesized
conjunct formulas with `" ∧ "`; `Implication` is
`f"{parenthesize(antecedent)} => {parenthesize(consequent)}"`. -/
def formula : Sentence → List Char
  | .base => []
  | .symbol n => n.data
  | .not x => '¬' :: parenthesize (formula x)
  | .and cs =>
    match cs with
    | [c] => formula c
    | cs' => pyJoin [' ', '∧', ' '] (formulaParts cs')
  | .implication a b =>
    parenthesize (formula a) ++ [' ', '=', '>', ' '] ++ parenthesize (formula b)

/-- The list `[Sentence.parenthesize(conjunct.formula()) for conjunct in cs]`. -/
def formulaParts : List Sentence → List (List Char)
  | [] => []
  | c :: rest => parenthesize (formula c) :: formulaParts rest
end

mutual
/-- Well-formed expressions in the spec's sense: one of the four proper
variants (never a bare base-class instance), with every `And` node holding
at least one conjunct. -/
def wellFormed : Sentence → Bool
  | .base => false
  | .symbol _ => true
  | .not x => wellFormed x
  | .and cs => !cs.isEmpty && wellFormedList cs
  | .implication a b => wellFormed a && wellFormed b

def wellFormedList : List Sentence → Bool
  | [] => true
  | c :: rest => wellFormed c && wellFormedList rest
end

mutual
/-- The source's `__eq__` methods: `Symbol` compares names after an
`isinstance` check, `Not` compares operands, `And` compares conjunct lists
element-wise (Python list `==`), `Implication` compares both children; a
value of a different class compares unequal. The base class inherits
`object.__eq__` (identity), which has no structural counterpart; two
(distinct) base instances compare unequal, which the `false` case covers. -/
def pyEq : Sentence → Sentence → Bool
  | .symbol n1, .symbol n2 => n1 == n2
  | .not x, .not y => pyEq x y
  | .and cs, .and ds => pyEqList cs ds
  | .implication a b, .implication c d => pyEq a c && pyEq b d
  | _, _ => false

/-- Python list equality: same length and element-wise `__eq__`. -/
def pyEqList : List Sentence → List Sentence → Bool
  | [], [] => true
  | c :: cs, d :: ds => pyEq c d && pyEqList cs ds
  | _, _ => false
end

/-- The tuple each `__hash__` feeds to Python's `hash`: tag string plus the
children's (recursively hashed) content. Equal tuples give equal hashes, so
this value stands for the hash. -/
inductive HashKey where
  | baseK
  | symbolK (name : String)
  | notK (h : HashKey)
  | andK (hs : List HashKey)
  | impliesK (h1 h2 : HashKey)

mutual
/-- The source's `__hash__` methods: `hash(("symbol", name))`,
`hash(("not", hash(operand)))`, `hash(("and", tuple(map hash conjuncts)))`,
`hash(("implies", hash(antecedent), hash(consequent)))`, modelled as the
tuple structure itself; the base class inherits identity hashing (`baseK`
stands in, unused on well-formed values). -/
def pyHash : Sentence → HashKey
  | .base => .baseK
  | .symbol n => .symbolK n
  | .not x => .notK (pyHash x)
  | .and cs => .andK (pyHashList cs)
  | .implication a b => .impliesK (pyHash a) (pyHash b)

def pyHashList : List Sentence → List HashKey
  | [] => []
  | c :: rest => pyHash c :: pyHashList rest
end

/-- An argument passed to a constructor: either an actual `Sentence` or a
non-sentence Python value (which `Sentence.validate` rejects). -/
inductive Arg where
  | sentence (s : Sentence)
  | nonSentence (v : PyObj)

/-- Source method `Sentence.validate(sentence)`: raises `TypeError("must be
a logical sentence")` unless the argument is a `Sentence` instance. -/
def validate : Arg → Except PyError Unit
  | .sentence _ => .ok ()
  | .nonSentence _ => .error .typeError

/-- The validation loop of `And.__init__`: validate each argument in order,
collecting the sentences. -/
def validateAll : List Arg → Except PyError (List Sentence)
  | [] => .ok []
  | a :: rest => do
    validate a
    let ss ← validateAll rest
    match a with
    | .sentence s => .ok (s :: ss)
    | .nonSentence _ => .error .typeError

/-- Source constructor `And.__init__(*conjuncts)`: validate every argument, then store the
list; there is no constraint on how many arguments are given. -/
def mkAnd (args : List Arg) : Except PyError Sentence :=
  (validateAll args).map Sentence.and

/-- Source method `And.add(conjunct)`: validate, then append to the conjunct list. -/
def addConjunct (cs : List Sentence) (a : Arg) : Except PyError Sentence := do
  validate a
  match a with
  | .sentence s => .ok (.and (cs ++ [s]))
  | .nonSentence _ => .error .typeError

/-- Does a rule fire: its expression evaluates without error to a truthy
result. -/
def fires (r : Sentence × String) (m : Model) : Bool :=
  match evaluate r.1 m with
  | .ok true => true
  | _ => false

/-- The rule loop of `TrafficRules.check_violations`: for each
`(rule, violation_msg)` pair in order, append the message when the rule
evaluates true; `except Exception: continue` skips the rule on any raised
exception. -/
def check_violations (rules : List (Sentence × String)) (m : Model) :
    List String :=
  match rules with
  | [] => []
  | (r, msg) :: rest =>
    match evaluate r m with
    | .ok true => msg :: check_violations rest m
    | .ok false => check_violations rest m
    | .error _ => check_violations rest m

/-- The catalogue `TrafficRules._initialize_rules` builds. -/
def trafficRules : List (Sentence × String) :=
  [(.and [.symbol "SpeedLimit", .symbol "Residential"],
      "Speed violation in residential area"),
   (.and [.symbol "SpeedLimit", .symbol "Highway"],
      "Speed violation on highway"),
   (.and [.symbol "RedLight", .symbol "AtIntersection", .symbol "VehicleMoving"],
      "Red light violation"),
   (.and [.symbol "SignalChange", .not (.symbol "SignalUsed")],
      "Lane change violation"),
   (.and [.symbol "OneWay", .symbol "WrongDirection"],
      "Wrong way violation"),
   (.and [.symbol "StopSign", .not (.symbol "CompleteStop")],
      "Stop sign violation"),
   (.and [.symbol "NoParking", .symbol "IsParked"],
      "Parking violation"),
   (.and [.symbol "NoOvertaking", .symbol "IsOvertaking"],
      "Overtaking violation"),
   (.and [.symbol "LocationA", .symbol "LocationB"],
      "Location inconsistency")]

mutual
/-- Modelled from the spec (section 4.3): the set of distinct `Variable`
names reachable in the expression tree — singleton for a variable, the
operand's set for `Not`, the union over all conjuncts for `And`, the union
of both sides for `Implies`. Used to compare `symbols` against its
specification. -/
def specVarNames : Sentence → Finset String
  | .base => ∅
  | .symbol n => {n}
  | .not x => specVarNames x
  | .and cs => specVarNamesList cs
  | .implication a b => specVarNames a ∪ specVarNames b

def specVarNamesList : List Sentence → Finset String
  | [] => ∅
  | c :: rest => specVarNames c ∪ specVarNamesList rest
end

@[simp] lemma pyOkBind {α β : Type} (a : α) (f : α → Except PyError β) :
    (Except.ok a : Except PyError α) >>= f = f a := rfl

@[simp] lemma pyErrBind {α β : Type} (e : PyError) (f : α → Except PyError β) :
    (Except.error e : Except PyError α) >>= f = Except.error e := rfl

@[simp] lemma pyMapOk {α β : Type} (g : α → β) (a : α) :
    Except.map g (Except.ok a : Except PyError α) = Except.ok (g a) := rfl

lemma getLast?_append_singleton (l : List Char) (a : Char) :
    (l ++ [a]).getLast? = some a := by
  induction l with
  | nil => rfl
  | cons x xs ih =>
    rw [List.cons_append]
    cases xs with
    | nil => rfl
    | cons y ys =>
      rw [List.cons_append] at ih ⊢
      rw [List.getLast?_cons_cons]
      exact ih

lemma dropLast_append_singleton (l : List Char) (a : Char) :
    (l ++ [a]).dropLast = l := by
  simp

lemma wrapped_wrap (s : List Char) (hb : balanced s = true) :
    wrapped ('(' :: (s ++ [')'])) = true := by
  show ('(' == '(' && (s ++ [')']).getLast? == some ')'
        && balanced (s ++ [')']).dropLast) = true
  rw [getLast?_append_singleton, dropLast_append_singleton, hb]
  rfl

lemma parenthesize_of_guard (s : List Char)
    (h : (s.isEmpty || pyIsAlpha s || wrapped s) = true) :
    parenthesize s = s := by
  unfold parenthesize
  rw [h]
  rfl

lemma parenthesize_of_not_guard (s : List Char)
    (h : (s.isEmpty || pyIsAlpha s || wrapped s) = false) :
    parenthesize s = '(' :: (s ++ [')']) := by
  unfold parenthesize
  rw [h]
  rfl

lemma parenthesize_idem_of_balanced (s : List Char) (hb : balanced s = true) :
    parenthesize (parenthesize s) = parenthesize s := by
  by_cases h : (s.isEmpty || pyIsAlpha s || wrapped s) = true
  · rw [parenthesize_of_guard s h, parenthesize_of_guard s h]
  · have h' : (s.isEmpty || pyIsAlpha s || wrapped s) = false :=
      Bool.eq_false_iff.mpr h
    rw [parenthesize_of_not_guard s h']
    apply parenthesize_of_guard
    rw [wrapped_wrap s hb]
    simp

/-- C1 counterexample: for `s = ")"` (non-empty), `parenthesize` applied
twice gives `"(()))"` while applied once it gives `"())"`, so the claimed
idempotence on every non-empty string fails. -/
theorem C1_counterexample :
    ([')'] : List Char) ≠ [] ∧
      parenthesize (parenthesize [')']) ≠ parenthesize [')'] := by
  constructor
  · decide
  · decide

/-- C1 (amended): `parenthesize` is idempotent on every non-empty string
whose parentheses are balanced in the scan's sense (depth never goes
negative and returns to zero); this covers every string `parenthesize`
itself outputs from balanced input. -/
theorem C1_parenthesize_idempotent (s : List Char) (hne : s ≠ [])
    (hb : balanced s = true) :
    parenthesize (parenthesize s) = parenthesize s :=
  parenthesize_idem_of_balanced s hb

/-- C1 witness: the amended theorem applied at the concrete balanced
string `"a ∧ b"`. -/
theorem C1_witness :
    parenthesize (parenthesize ['a', ' ', '∧', ' ', 'b'])
      = parenthesize ['a', ' ', '∧', ' ', 'b'] :=
  C1_parenthesize_idempotent ['a', ' ', '∧', ' ', 'b'] (by decide) (by decide)

lemma validateAll_sentences (args : List Arg)
    (h : ∀ a ∈ args, ∃ s, a = Arg.sentence s) :
    ∃ ss : List Sentence, validateAll args = .ok ss ∧ ss.length = args.length := by
  induction args with
  | nil => exact ⟨[], rfl, rfl⟩
  | cons a rest ih =>
    obtain ⟨s, hs⟩ := h a (List.mem_cons_self a rest)
    obtain ⟨ss, hss, hlen⟩ := ih (fun a' ha' => h a' (List.mem_cons_of_mem a ha'))
    subst hs
    refine ⟨s :: ss, ?_, by simp [hlen]⟩
    simp [validateAll, validate, hss]

/-- C10: the public constructor accepts zero conjuncts and yields an `And`
with an empty conjunct list; evaluating that value returns true under every
model (Python `all([])`), while `symbols` on it raises `TypeError`
(`set.union()` with no arguments), so `symbols` is not total on
constructible values. -/
theorem C10_empty_and :
    mkAnd [] = .ok (Sentence.and []) ∧
      (∀ m : Model, evaluate (Sentence.and []) m = .ok true) ∧
      symbols (Sentence.and []) = .error .typeError :=
  ⟨rfl, fun _ => rfl, rfl⟩

/-- C2 counterexample: `And()` with zero conjuncts constructs successfully,
producing a conjunct sequence of length 0 — the claimed minimum-length
requirement does not exist in the constructor. -/
theorem C2_counterexample : mkAnd [] = .ok (Sentence.and []) := rfl

/-- C2 (amended): `And.__init__` only validates that each argument is a
`Sentence`; when every argument is one, construction succeeds and stores
exactly the given arguments, with no lower bound on their number (zero
conjuncts included). -/
theorem C2_mkAnd_no_minimum (args : List Arg)
    (h : ∀ a ∈ args, ∃ s, a = Arg.sentence s) :
    ∃ ss : List Sentence, mkAnd args = .ok (.and ss) ∧ ss.length = args.length := by
  obtain ⟨ss, hss, hlen⟩ := validateAll_sentences args h
  exact ⟨ss, by simp [mkAnd, hss], hlen⟩

/-- C2 witness: the amended theorem at the empty argument list — the
constructor succeeds with zero conjuncts. -/
theorem C2_witness :
    ∃ ss : List Sentence, mkAnd [] = .ok (.and ss) ∧ ss.length = 0 :=
  C2_mkAnd_no_minimum [] (fun a ha => absurd ha (List.not_mem_nil a))

/-- C6: evaluating a `Symbol` fails with `UnboundVariable(name)` exactly
when the name is absent from the model; when present, the stored value is
coerced to a boolean by truthiness and returned, whatever its type. -/
theorem C6_symbol_lookup (n : String) (m : Model) :
    (evaluate (.symbol n) m = .error (.unboundVariable n) ↔ m n = none) ∧
      (∀ v, m n = some v → evaluate (.symbol n) m = .ok (truthy v)) := by
  constructor
  · cases h : m n with
    | none => simp [evaluate, h]
    | some v => simp [evaluate, h]
  · intro v hv
    simp [evaluate, hv]

/-- C6 witness: under a model binding `X` to the integer 2 and nothing
else, `X` evaluates to true (truthiness coercion of a non-boolean) and `Y`
fails with `UnboundVariable("Y")`. -/
theorem C6_witness :
    evaluate (.symbol "X")
        (fun n => if n = "X" then some (PyObj.pyint 2) else none)
      = .ok true ∧
    evaluate (.symbol "Y")
        (fun n => if n = "X" then some (PyObj.pyint 2) else none)
      = .error (.unboundVariable "Y") := by
  constructor
  · exact (C6_symbol_lookup "X" _).2 (PyObj.pyint 2) rfl
  · exact ((C6_symbol_lookup "Y" _).1).mpr rfl

/-- C5: when both sides evaluate cleanly, an implication evaluates false
exactly when the antecedent is true and the consequent false; and when the
antecedent evaluates false, the consequent is never evaluated, so the
implication returns true even if the consequent's variables are unbound. -/
theorem C5_implication :
    (∀ (a b : Sentence) (m : Model) (x y : Bool),
        evaluate a m = .ok x → evaluate b m = .ok y →
        (evaluate (.implication a b) m = .ok false ↔ x = true ∧ y = false)) ∧
      (∀ (a b : Sentence) (m : Model),
        evaluate a m = .ok false → evaluate (.implication a b) m = .ok true) := by
  constructor
  · intro a b m x y ha hb
    cases x <;> cases y <;> simp [evaluate, ha, hb]
  · intro a b m ha
    simp [evaluate, ha]

/-- C5 witness: with `A` true and `B` false the implication `A => B`
evaluates false; with antecedent `C` false and consequent the unbound
symbol `U`, the implication evaluates true with no error. -/
theorem C5_witness :
    evaluate (.implication (.symbol "A") (.symbol "B"))
        (fun n => if n = "A" then some (PyObj.pybool true)
          else if n = "B" then some (PyObj.pybool false)
          else if n = "C" then some (PyObj.pybool false) else none)
      = .ok false ∧
    evaluate (.implication (.symbol "C") (.symbol "U"))
        (fun n => if n = "A" then some (PyObj.pybool true)
          else if n = "B" then some (PyObj.pybool false)
          else if n = "C" then some (PyObj.pybool false) else none)
      = .ok true := by
  constructor
  · exact (C5_implication.1 _ _ _ true false (by rfl) (by rfl)).mpr ⟨rfl, rfl⟩
  · exact C5_implication.2 _ _ _ (by rfl)

lemma evalConjuncts_append_false (pre : List Sentence) (c : Sentence)
    (post : List Sentence) (m : Model)
    (hpre : ∀ c' ∈ pre, evaluate c' m = .ok true)
    (hc : evaluate c m = .ok false) :
    evalConjuncts (pre ++ c :: post) m = .ok false := by
  induction pre with
  | nil => simp [evalConjuncts, hc]
  | cons p rest ih =>
    have hp : evaluate p m = .ok true := hpre p (List.mem_cons_self p rest)
    have := ih (fun c' hc' => hpre c' (List.mem_cons_of_mem p hc'))
    simp [evalConjuncts, hp, this]

/-- C4: when both conjuncts evaluate cleanly, `And(a, b)` evaluates to
their boolean conjunction; and evaluation short-circuits: after true
conjuncts, the first false conjunct makes the whole `And` false without the
remaining conjuncts ever being evaluated, so unbound variables there raise
nothing. -/
theorem C4_and_conjunction :
    (∀ (a b : Sentence) (m : Model) (x y : Bool),
        evaluate a m = .ok x → evaluate b m = .ok y →
        evaluate (.and [a, b]) m = .ok (x && y)) ∧
      (∀ (pre : List Sentence) (c : Sentence) (post : List Sentence) (m : Model),
        (∀ c' ∈ pre, evaluate c' m = .ok true) → evaluate c m = .ok false →
        evaluate (.and (pre ++ c :: post)) m = .ok false) := by
  constructor
  · intro a b m x y ha hb
    cases x <;> cases y <;> simp [evaluate, evalConjuncts, ha, hb]
  · intro pre c post m hpre hc
    show evalConjuncts (pre ++ c :: post) m = .ok false
    exact evalConjuncts_append_false pre c post m hpre hc

/-- C4 witness: `And(A, B)` with both bound true evaluates true; the
conjunction `[F, U]` with `F` false and `U` unbound evaluates false with no
error, since `U` is behind the short circuit. -/
theorem C4_witness :
    evaluate (.and [.symbol "A", .symbol "B"])
        (fun n => if n = "A" then some (PyObj.pybool true)
          else if n = "B" then some (PyObj.pybool true)
          else if n = "F" then some (PyObj.pybool false) else none)
      = .ok true ∧
    evaluate (.and ([] ++ Sentence.symbol "F" :: [Sentence.symbol "U"]))
        (fun n => if n = "A" then some (PyObj.pybool true)
          else if n = "B" then some (PyObj.pybool true)
          else if n = "F" then some (PyObj.pybool false) else none)
      = .ok false := by
  constructor
  · exact C4_and_conjunction.1 _ _ _ true true (by rfl) (by rfl)
  · exact C4_and_conjunction.2 [] (.symbol "F") [.symbol "U"] _
      (fun c' hc' => absurd hc' (List.not_mem_nil c')) (by rfl)

/-- C3 counterexample: a rule whose expression is a bare `Sentence` base
instance (accepted by `Sentence.validate`) raises the non-UnboundVariable
error `Exception("nothing to evaluate")`, yet `check_violations` swallows
it and returns no violation instead of propagating — the `except Exception`
clause catches every error kind, not only `UnboundVariable`. -/
theorem C3_counterexample :
    evaluate Sentence.base (fun _ => none) = .error .nothingToEvaluate ∧
      check_violations [(Sentence.base, "some label")] (fun _ => none) = [] :=
  ⟨rfl, rfl⟩

/-- C3 (amended): `check_violations` skips a rule and continues whenever
evaluating it raises any error — `except Exception` catches every kind, not
only `UnboundVariable` — and the returned list is exactly the labels of the
rules that evaluate true, in catalogue order. -/
theorem C3_check_violations_filter (rules : List (Sentence × String)) (m : Model) :
    check_violations rules m = (rules.filter (fun r => fires r m)).map Prod.snd := by
  induction rules with
  | nil => rfl
  | cons r rest ih =>
    obtain ⟨e, msg⟩ := r
    cases h : evaluate e m with
    | ok b =>
      cases b <;> simp [check_violations, fires, h, ih]
    | error err =>
      simp [check_violations, fires, h, ih]

mutual
theorem pyEq_iff_eq : (e1 e2 : Sentence) → wellFormed e1 = true →
    wellFormed e2 = true → (pyEq e1 e2 = true ↔ e1 = e2)
  | .base, _, h1, _ => by simp [wellFormed] at h1
  | .symbol _, .base, _, h2 => by simp [wellFormed] at h2
  | .symbol n1, .symbol n2, _, _ => by simp [pyEq]
  | .symbol _, .not _, _, _ => by simp [pyEq]
  | .symbol _, .and _, _, _ => by simp [pyEq]
  | .symbol _, .implication _ _, _, _ => by simp [pyEq]
  | .not _, .base, _, h2 => by simp [wellFormed] at h2
  | .not _, .symbol _, _, _ => by simp [pyEq]
  | .not x, .not y, h1, h2 => by
    have ih := pyEq_iff_eq x y (by simpa [wellFormed] using h1)
      (by simpa [wellFormed] using h2)
    simp [pyEq, ih]
  | .not _, .and _, _, _ => by simp [pyEq]
  | .not _, .implication _ _, _, _ => by simp [pyEq]
  | .and _, .base, _, h2 => by simp [wellFormed] at h2
  | .and _, .symbol _, _, _ => by simp [pyEq]
  | .and _, .not _, _, _ => by simp [pyEq]
  | .and cs, .and ds, h1, h2 => by
    have hcs : wellFormedList cs = true := by
      simp [wellFormed] at h1
      exact h1.2
    have hds : wellFormedList ds = true := by
      simp [wellFormed] at h2
      exact h2.2
    have ih := pyEqList_iff_eq cs ds hcs hds
    simp [pyEq, ih]
  | .and _, .implication _ _, _, _ => by simp [pyEq]
  | .implication _ _, .base, _, h2 => by simp [wellFormed] at h2
  | .implication _ _, .symbol _, _, _ => by simp [pyEq]
  | .implication _ _, .not _, _, _ => by simp [pyEq]
  | .implication _ _, .and _, _, _ => by simp [pyEq]
  | .implication a b, .implication c d, h1, h2 => by
    simp [wellFormed] at h1 h2
    have ih1 := pyEq_iff_eq a c h1.1 h2.1
    have ih2 := pyEq_iff_eq b d h1.2 h2.2
    simp [pyEq, ih1, ih2]

theorem pyEqList_iff_eq : (l1 l2 : List Sentence) → wellFormedList l1 = true →
    wellFormedList l2 = true → (pyEqList l1 l2 = true ↔ l1 = l2)
  | [], [], _, _ => by simp [pyEqList]
  | [], _ :: _, _, _ => by simp [pyEqList]
  | _ :: _, [], _, _ => by simp [pyEqList]
  | c :: cs, d :: ds, h1, h2 => by
    simp [wellFormedList] at h1 h2
    have ih1 := pyEq_iff_eq c d h1.1 h2.1
    have ih2 := pyEqList_iff_eq cs ds h1.2 h2.2
    simp [pyEqList, ih1, ih2]
end

/-- C7: on well-formed expressions, the source's `__eq__` agrees exactly
with structural equality (same variant, recursively equal children, with
`And` conjunct lists compared element-wise in order and `Symbol` compared
by name), and equal expressions get equal hashes. -/
theorem C7_eq_and_hash (e1 e2 : Sentence)
    (h1 : wellFormed e1 = true) (h2 : wellFormed e2 = true) :
    (pyEq e1 e2 = true ↔ e1 = e2) ∧
      (pyEq e1 e2 = true → pyHash e1 = pyHash e2) :=
  ⟨pyEq_iff_eq e1 e2 h1 h2,
   fun h => by rw [(pyEq_iff_eq e1 e2 h1 h2).mp h]⟩

/-- C7 witness: the theorem at the concrete well-formed expression
`And(Symbol("A"), Not(Symbol("B")))` compared with itself. -/
theorem C7_witness :
    pyEq (Sentence.and [.symbol "A", .not (.symbol "B")])
        (Sentence.and [.symbol "A", .not (.symbol "B")]) = true ∧
      pyHash (Sentence.and [.symbol "A", .not (.symbol "B")])
        = pyHash (Sentence.and [.symbol "A", .not (.symbol "B")]) := by
  have h := C7_eq_and_hash (Sentence.and [.symbol "A", .not (.symbol "B")])
    (Sentence.and [.symbol "A", .not (.symbol "B")]) (by rfl) (by rfl)
  exact ⟨h.1.mpr rfl, h.2 (h.1.mpr rfl)⟩

lemma foldl_union_map (l : List Sentence) (s0 : Finset String) :
    (l.map specVarNames).foldl (· ∪ ·) s0 = s0 ∪ specVarNamesList l := by
  induction l generalizing s0 with
  | nil => simp [specVarNamesList]
  | cons c rest ih => simp [specVarNamesList, ih, Finset.union_assoc]

mutual
theorem symbols_eq_spec : (e : Sentence) → wellFormed e = true →
    symbols e = .ok (specVarNames e)
  | .base, h => by simp [wellFormed] at h
  | .symbol n, _ => rfl
  | .not x, h => by
    have ih := symbols_eq_spec x (by simpa [wellFormed] using h)
    simp only [symbols, specVarNames]
    exact ih
  | .and cs, h => by
    simp [wellFormed] at h
    have ih := symbolsList_eq_spec cs h.2
    cases cs with
    | nil => simp at h
    | cons c0 rest =>
      simp [symbols, ih, List.map_cons]
      rw [foldl_union_map]
      simp [specVarNames, specVarNamesList]
  | .implication a b, h => by
    simp [wellFormed] at h
    have ih1 := symbols_eq_spec a h.1
    have ih2 := symbols_eq_spec b h.2
    simp [symbols, specVarNames, ih1, ih2]

theorem symbolsList_eq_spec : (cs : List Sentence) → wellFormedList cs = true →
    symbolsList cs = .ok (cs.map specVarNames)
  | [], _ => rfl
  | c :: rest, h => by
    simp [wellFormedList] at h
    have ih1 := symbols_eq_spec c h.1
    have ih2 := symbolsList_eq_spec rest h.2
    simp [symbolsList, ih1, ih2]
end

/-- C8: on well-formed expressions, `symbols` returns (without error)
exactly the set of distinct variable names reachable in the tree — the
singleton for `Symbol`, the operand's set for `Not`, the union over all
conjuncts for `And`, and the union of both sides for `Implication` — as
described by `specVarNames`. -/
theorem C8_symbols_exact (e : Sentence) (h : wellFormed e = true) :
    symbols e = .ok (specVarNames e) :=
  symbols_eq_spec e h

/-- C8 witness: the theorem at the concrete nested expression
`Implies(And(Symbol("A"), Symbol("B")), Not(Symbol("A")))`. -/
theorem C8_witness :
    symbols (.implication (.and [.symbol "A", .symbol "B"]) (.not (.symbol "A")))
      = .ok (specVarNames
          (.implication (.and [.symbol "A", .symbol "B"]) (.not (.symbol "A")))) :=
  C8_symbols_exact _ (by rfl)

/-- C9: formula rendering follows the variant rules of the source exactly:
a symbol renders as its name; `Not` as `¬` followed by the parenthesized
operand formula; a one-conjunct `And` as that conjunct's formula
unparenthesized; an `And` of two or more conjuncts as the parenthesized
conjunct formulas joined by `" ∧ "`; and `Implication` as the parenthesized
antecedent, `" => "`, then the parenthesized consequent. -/
theorem C9_formula_rendering :
    (∀ n : String, formula (.symbol n) = n.data) ∧
      (∀ x : Sentence, formula (.not x) = '¬' :: parenthesize (formula x)) ∧
      (∀ c : Sentence, formula (.and [c]) = formula c) ∧
      (∀ cs : List Sentence, 2 ≤ cs.length →
        formula (.and cs) = pyJoin [' ', '∧', ' '] (formulaParts cs)) ∧
      (∀ a b : Sentence, formula (.implication a b) =
        parenthesize (formula a) ++ [' ', '=', '>', ' '] ++ parenthesize (formula b)) := by
  refine ⟨fun n => rfl, fun x => rfl, fun c => rfl, ?_, fun a b => rfl⟩
  intro cs h
  match cs with
  | [] => simp at h
  | [c] => simp at h
  | c1 :: c2 :: rest => rfl

/-- C9 witness: the two-conjunct rule of the theorem at
`And(Symbol("A"), Symbol("B"))`. -/
theorem C9_witness :
    formula (.and [.symbol "A", .symbol "B"])
      = pyJoin [' ', '∧', ' '] (formulaParts [.symbol "A", .symbol "B"]) :=
  C9_formula_rendering.2.2.2.1 [.symbol "A", .symbol "B"] (by decide)
